import Mathlib

/-!
# Verification of the auth / user-profile layer

Shallow embedding of `src/utils/auth-errors.ts` and `src/utils/auth.ts`
(auth gateway, profile reconciler, error normalizer) together with proofs of
the specification's testable properties.

Conventions of the embedding:
* A JavaScript value that may be `undefined`/`null` is an `Option`.
* JavaScript string truthiness (`if (s)`) is `s ≠ ""` for a `String` field
  (`undefined` and `""` behave identically in every use below, so an absent
  message is represented by `""`).
* A `throw` is the `.error` constructor of `Except`; a normal return is `.ok`.
* External calls (the Supabase auth provider, the Postgres-backed store) are
  inputs: either an explicit response parameter or an explicit store value
  threaded through the function.
-/

/-- A raw backend error as seen by the client: the fields that
`auth-errors.ts` reads from an `unknown` error value (`ErrorWithMessage`),
which also cover Supabase `AuthError` and `PostgrestError` shapes. -/
structure SbError where
  message : String
  status : Option Nat
  code : Option String
  details : Option String
deriving DecidableEq, Repr

/-- The normalized error shape `{ message, status? }` (`AuthError` in
`auth.ts`, the return type of `getAuthError`). -/
structure AuthError where
  message : String
  status : Option Nat
deriving DecidableEq, Repr

/-- `List Char` prefix test, used to embed JavaScript `String.includes`. -/
def isPrefixOfL : List Char → List Char → Bool
  | [], _ => true
  | _ :: _, [] => false
  | a :: as, b :: bs => a == b && isPrefixOfL as bs

/-- Does `pat` occur as a contiguous run inside `s`? -/
def containsL (pat : List Char) : List Char → Bool
  | [] => isPrefixOfL pat []
  | c :: rest => isPrefixOfL pat (c :: rest) || containsL pat rest

/-- Embedding of JavaScript `s.includes(pat)`. -/
def containsSub (s pat : String) : Bool :=
  containsL pat.data s.data

/-- Embedding of JavaScript `s.toLowerCase()` (the messages involved are
ASCII, where `Char.toLower` agrees with `toLowerCase`). -/
def lowerStr (s : String) : String :=
  ⟨s.data.map Char.toLower⟩

/-- The `switch (err.code)` block of `getAuthError`
(`auth-errors.ts` lines 34–60): known backend error codes map to fixed
user-facing strings; an unknown code leaves the message unchanged. -/
def codeSwitch (code : String) (message : String) : String :=
  if code = "23505" then
    "This email is already registered. Please try logging in instead."
  else if code = "auth/email-already-in-use" then
    "This email is already in use. Please try logging in instead."
  else if code = "email-already-in-use" then
    "This email is already in use. Please try logging in instead."
  else if code = "auth/invalid-email" then
    "The email address is invalid."
  else if code = "auth/weak-password" then
    "Password is too weak. Please use at least 6 characters."
  else if code = "auth/user-not-found" then
    "No account found with this email address."
  else if code = "auth/wrong-password" then
    "Incorrect password. Please try again."
  else if code = "user-not-found" then
    "Account not found. Please check your email address."
  else message

/-- The substring-heuristics block of `getAuthError`
(`auth-errors.ts` lines 64–94). -/
def heuristics (message : String) : String :=
  if containsSub message "duplicate key" || containsSub message "already registered" ||
      containsSub message "already in use" || containsSub message "already exists" then
    "This email is already registered. Please try logging in instead."
  else if containsSub (lowerStr message) "invalid login" ||
      containsSub (lowerStr message) "invalid credentials" then
    "Incorrect email or password. Please try again."
  else if containsSub message "email" && containsSub message "confirmation" then
    "Please check your email to confirm your account before logging in."
  else if containsSub (lowerStr message) "permission" ||
      containsSub (lowerStr message) "not authorized" ||
      containsSub (lowerStr message) "rls" ||
      containsSub (lowerStr message) "policy" then
    "Account creation failed due to permission issues. Please contact support."
  else if containsSub (lowerStr message) "constraint" ||
      containsSub (lowerStr message) "foreign key" then
    "Account creation failed due to database constraints. Please try again or contact support."
  else message

/-- Embedding of `getAuthError` (`auth-errors.ts`): `none` models a falsy
`error` argument. The `status` field is only copied when `err.message` is
truthy, exactly as in the source. -/
def getAuthError (error : Option SbError) : AuthError :=
  match error with
  | none => ⟨"An unexpected error occurred", none⟩
  | some err =>
    if err.message = "" then ⟨"An unexpected error occurred", none⟩
    else
      let message := err.message
      let status := err.status
      let message :=
        match err.code with
        | some c => if c = "" then message else codeSwitch c message
        | none => message
      let message := heuristics message
      ⟨message, status⟩

/-!
## Data model (`users.ts`, both variants share it)

`IUser` is the application-level profile row (the optional timestamps and
links, which this code never writes, are omitted). The profile store is the
`users` table: a list of rows. `AuthUser` carries the fields of the
provider's user record that the code reads: `id`, `email`,
`user_metadata?.full_name`, `user_metadata?.avatar_url`,
`app_metadata?.provider`.
-/

/-- Application-level profile row (`IUser` in `users.ts`). -/
structure IUser where
  id : String
  email : String
  name : String
  description : String
  avatar : String
  provider : String
deriving DecidableEq, Repr

/-- The auth provider's user record, restricted to the fields read by
`users.captureUserDetails` and `auth.signUp`. An absent or empty field is
`none` / `some ""`; both are falsy in the source's `||` chains. -/
structure AuthUser where
  id : String
  email : Option String
  fullName : Option String
  avatarUrl : Option String
  providerTag : Option String
deriving DecidableEq, Repr

/-- The `users` table. -/
def ProfileStore := List IUser

instance : DecidableEq ProfileStore := fun a b => List.hasDecEq a b

/-- One Supabase call against the `users` table, recorded so theorems can
speak about which store operations an execution performed. -/
inductive StoreEvent where
  | selectById (id : String)
  | upsert (row : IUser)
deriving DecidableEq, Repr

/-- Row lookup by identifier: embeds
`supabase.from("users").select(...).eq("id", id)` with `.single()` /
`.maybeSingle()` (ids are unique, so the first match is the row). -/
def findById : ProfileStore → String → Option IUser
  | [], _ => none
  | r :: rest, id => if r.id == id then some r else findById rest id

/-- Upsert keyed on `id` (`onConflict: "id", ignoreDuplicates: false`):
replaces the existing row with the same identifier, else appends. -/
def upsertById : ProfileStore → IUser → ProfileStore
  | [], row => [row]
  | r :: rest, row => if r.id == row.id then row :: rest else r :: upsertById rest row

/-- Number of rows carrying a given identifier. -/
def countById : ProfileStore → String → Nat
  | [], _ => 0
  | r :: rest, id => (if r.id == id then 1 else 0) + countById rest id

/-- JavaScript `a || b` for a possibly-absent string `a`: `b` when `a` is
`undefined` or `""`. -/
def jsOr (a : Option String) (b : String) : String :=
  match a with
  | some s => if s = "" then b else s
  | none => b

/-- Characters of the email before the first `@`; embeds
`email.split("@")[0]`. -/
def takeUntilAt : List Char → List Char
  | [] => []
  | c :: rest => if c == '@' then [] else c :: takeUntilAt rest

/-- `email.split("@")[0]` — the local part of an email address. -/
def localPart (email : String) : String :=
  ⟨takeUntilAt email.data⟩

/-- Default field synthesis of the profile reconciler (`userData` in both
variants of `captureUserDetails`): name from OAuth full name, else the
email's local part, else `"User"`; avatar from OAuth metadata or empty;
description empty; provider from OAuth app metadata or `"email"`. -/
def mkUserData (au : AuthUser) : IUser :=
  { id := au.id
    email := jsOr au.email ""
    name := jsOr au.fullName (jsOr (au.email.map localPart) "User")
    description := ""
    avatar := jsOr au.avatarUrl ""
    provider := jsOr au.providerTag "email" }

/-- Variant A of `users.captureUserDetails` (query first, then upsert):
guard on a usable id, `maybeSingle` lookup by id, return the existing row
if found, otherwise synthesize defaults and upsert keyed on id. The result
records the value returned or thrown, the resulting store, and the trace of
store operations performed. -/
def captureUserDetailsA (authUser? : Option AuthUser) (store : ProfileStore) :
    Except SbError IUser × ProfileStore × List StoreEvent :=
  match authUser? with
  | none => (.error ⟨"Invalid auth user data", none, none, none⟩, store, [])
  | some au =>
    if au.id = "" then (.error ⟨"Invalid auth user data", none, none, none⟩, store, [])
    else
      match findById store au.id with
      | some row => (.ok row, store, [.selectById au.id])
      | none =>
        let userData := mkUserData au
        (.ok userData, upsertById store userData, [.selectById au.id, .upsert userData])

/-- Variant B of `users.captureUserDetails` (wait for the trigger, query
with `.single()`, fall back to a manual upsert when the row is absent). The
fixed delay has no observable effect on the store, so it does not appear in
the embedding; the control flow after it is the same query/create shape as
variant A, with variant B's own error message. -/
def captureUserDetailsB (authUser? : Option AuthUser) (store : ProfileStore) :
    Except SbError IUser × ProfileStore × List StoreEvent :=
  match authUser? with
  | none => (.error ⟨"Invalid auth user", none, none, none⟩, store, [])
  | some au =>
    if au.id = "" then (.error ⟨"Invalid auth user", none, none, none⟩, store, [])
    else
      match findById store au.id with
      | some row => (.ok row, store, [.selectById au.id])
      | none =>
        let userData := mkUserData au
        (.ok userData, upsertById store userData, [.selectById au.id, .upsert userData])

/-!
## Auth gateway (`auth.ts`)

Each operation takes the provider's response as an explicit parameter
(`Except`/`Option` of `SbError`); profile reconciliation is a function
parameter where the gateway merely awaits `users.captureUserDetails`.
-/

/-- The `data` payload of `supabase.auth.signUp` / `signInWithPassword`:
the part the gateway inspects (`data.user` may be null). -/
structure SessionData where
  user : Option AuthUser
deriving DecidableEq, Repr

/-- Embedding of `auth.signUp`: delegate to the provider; a provider error
is thrown and caught, reaching the caller as `getAuthError error`; when a
user is present, await reconciliation — a reconciliation error is caught by
the same handler and also surfaces normalized. -/
def signUp (providerResult : Except SbError SessionData)
    (capture : AuthUser → Except SbError IUser) : Except AuthError SessionData :=
  match providerResult with
  | .error e => .error (getAuthError (some e))
  | .ok data =>
    match data.user with
    | none => .ok data
    | some u =>
      match capture u with
      | .error e => .error (getAuthError (some e))
      | .ok _ => .ok data

/-- Embedding of `auth.signIn`: delegate to the provider; a provider error
is rethrown as-is; a reconciliation error is caught by the inner
`try`/`catch`, logged, and swallowed, so the provider's session data is
still returned. -/
def signIn (providerResult : Except SbError SessionData)
    (capture : AuthUser → Except SbError IUser) : Except SbError SessionData :=
  match providerResult with
  | .error e => .error e
  | .ok data =>
    match data.user with
    | none => .ok data
    | some u =>
      match capture u with
      | .error _ => .ok data
      | .ok _ => .ok data

/-- Modelled from the spec: the process-wide client access store
(`useAccessStore`, defined outside these sources) holds client session
state and exposes a `reset` operation returning it to its initial state. -/
structure AccessState where
  accessToken : Option String
deriving DecidableEq, Repr

/-- Modelled from the spec: the state `reset` produces. -/
def AccessState.initial : AccessState := ⟨none⟩

/-- Modelled from the spec: `useAccessStore.getState().reset()`. -/
def AccessState.reset (_s : AccessState) : AccessState := AccessState.initial

/-- Embedding of `auth.signOut`: call the provider, then reset the access
store unconditionally, then throw `{ message, status }` when the provider
returned an error. -/
def signOut (providerError : Option SbError) (s : AccessState) :
    AccessState × Option AuthError :=
  let s' := AccessState.reset s
  match providerError with
  | none => (s', none)
  | some e => (s', some ⟨e.message, e.status⟩)

/-- The response of `auth.resetPasswordRequest`. -/
structure ResetResponse where
  success : Bool
  message : String
deriving DecidableEq, Repr

/-- The generic success payload returned by `resetPasswordRequest` whether
or not a reset email was actually issued. -/
def genericResetResponse : ResetResponse :=
  ⟨true, "If an account exists, a password reset link will be sent."⟩

/-- Continuation of `resetPasswordRequest` after the lookup error gate
(`auth.ts` lines 126–148): no row or a non-`"email"` provider short-circuits
to the generic success without calling the provider; otherwise the
provider's reset-email call is issued and its error, if any, is thrown. The
boolean records whether `resetPasswordForEmail` was invoked. -/
def resetAfterLookup (user? : Option IUser) (resetErr? : Option SbError) :
    Except SbError ResetResponse × Bool :=
  match user? with
  | none => (.ok genericResetResponse, false)
  | some u =>
    if u.provider ≠ "email" then (.ok genericResetResponse, false)
    else
      match resetErr? with
      | some e => (.error e, true)
      | none => (.ok genericResetResponse, true)

/-- Embedding of `auth.resetPasswordRequest`: `user?`/`userError?` are the
`data`/`error` of the `.single()` profile lookup by email, `resetErr?` the
outcome of `supabase.auth.resetPasswordForEmail`. A lookup error other than
`PGRST116` (no rows) is thrown; otherwise the flow continues. -/
def resetPasswordRequest (user? : Option IUser) (userError? : Option SbError)
    (resetErr? : Option SbError) : Except SbError ResetResponse × Bool :=
  match userError? with
  | some ue =>
    if ue.code ≠ some "PGRST116" then (.error ue, false)
    else resetAfterLookup user? resetErr?
  | none => resetAfterLookup user? resetErr?

/-- The `updates` argument of `users.updateProfile`
(`Partial<Omit<IUser, "id" | "email" | "provider">>`, restricted to the
fields the function inspects or forwards): `none` is an absent key. -/
structure ProfileUpdates where
  name : Option String
  description : Option String
  avatar : Option String
deriving DecidableEq, Repr

/-- Apply a partial update to a row (`.update(updates).eq("id", userId)`
on a matching row). -/
def applyProfileUpdates (r : IUser) (u : ProfileUpdates) : IUser :=
  { r with
    name := u.name.getD r.name
    description := u.description.getD r.description
    avatar := u.avatar.getD r.avatar }

/-- Embedding of `users.updateProfile`: update matching rows in the store
(throwing the store's error when the update fails); then, exactly when the
update carries an `avatar` or `name` key, push that metadata to
`supabase.auth.updateUser` — a failure there is logged and swallowed, never
thrown. Result: thrown/returned value, resulting store, whether the
metadata call was made, and the swallowed metadata error, if any. -/
def updateProfile (userId : String) (updates : ProfileUpdates)
    (store : ProfileStore) (storeErr? : Option SbError) (authErr? : Option SbError) :
    Except SbError Unit × ProfileStore × Bool × Option SbError :=
  match storeErr? with
  | some e => (.error e, store, false, none)
  | none =>
    let store' := store.map fun r => if r.id == userId then applyProfileUpdates r updates else r
    if updates.avatar.isSome || updates.name.isSome then
      match authErr? with
      | some ae => (.ok (), store', true, some ae)
      | none => (.ok (), store', true, none)
    else (.ok (), store', false, none)

/-- Is an `Except` a success? -/
def isOkE {ε α : Type} : Except ε α → Bool
  | .ok _ => true
  | .error _ => false

/-!
## Supporting lemmas about the profile store
-/

/-- A lookup misses exactly when no row carries the identifier. -/
theorem findById_eq_none_iff (s : ProfileStore) (id : String) :
    findById s id = none ↔ countById s id = 0 := by
  induction s with
  | nil => simp [findById, countById]
  | cons r rest ih =>
    cases hb : r.id == id with
    | true => simp [findById, countById, hb]
    | false => simp [findById, countById, hb, ih]

/-- Upserting a fresh identifier yields exactly one row carrying it. -/
theorem upsert_new_countById (s : ProfileStore) (row : IUser)
    (h : findById s row.id = none) :
    countById (upsertById s row) row.id = 1 := by
  induction s with
  | nil => simp [upsertById, countById]
  | cons r rest ih =>
    cases hb : r.id == row.id with
    | true => simp [findById, hb] at h
    | false =>
      simp only [findById, hb, if_false, Bool.false_eq_true, if_neg] at h
      simp [upsertById, countById, hb, ih h]

/-- One invocation of reconciliation variant A on a well-formed store
succeeds and leaves exactly one row with the user's identifier. -/
theorem captureA_run (au : AuthUser) (store : ProfileStore) (hid : ¬ au.id = "")
    (huniq : countById store au.id ≤ 1) :
    isOkE (captureUserDetailsA (some au) store).1 = true ∧
    countById (captureUserDetailsA (some au) store).2.1 au.id = 1 := by
  simp only [captureUserDetailsA, if_neg hid]
  cases hfind : findById store au.id with
  | none =>
    refine ⟨rfl, ?_⟩
    exact upsert_new_countById store (mkUserData au) hfind
  | some r =>
    refine ⟨rfl, ?_⟩
    show countById store au.id = 1
    have h0 : ¬ countById store au.id = 0 := by
      intro h
      rw [← findById_eq_none_iff] at h
      rw [hfind] at h
      exact Option.noConfusion h
    omega

/-- For a user with a usable identifier, the two observed implementations
of reconciliation coincide. -/
theorem captureA_eq_captureB (au : AuthUser) (s : ProfileStore) (hid : ¬ au.id = "") :
    captureUserDetailsA (some au) s = captureUserDetailsB (some au) s := by
  simp only [captureUserDetailsA, captureUserDetailsB, if_neg hid]

/-!
## Claim theorems
-/

/-- C6: reconciliation is idempotent on the profile store — for every
authenticated user (usable id) and every store holding at most one row for
that user, invoking `captureUserDetails` twice in sequence succeeds both
times (no conflict failure) and leaves exactly one profile row whose
identifier equals the auth-provider user id, in both implementation
variants (the create path is an upsert keyed on id). -/
theorem captureUserDetails_idempotent (au : AuthUser) (store : ProfileStore)
    (hid : ¬ au.id = "") (huniq : countById store au.id ≤ 1) :
    (isOkE (captureUserDetailsA (some au) store).1 = true ∧
      isOkE (captureUserDetailsA (some au) (captureUserDetailsA (some au) store).2.1).1 = true ∧
      countById (captureUserDetailsA (some au)
        (captureUserDetailsA (some au) store).2.1).2.1 au.id = 1) ∧
    (isOkE (captureUserDetailsB (some au) store).1 = true ∧
      isOkE (captureUserDetailsB (some au) (captureUserDetailsB (some au) store).2.1).1 = true ∧
      countById (captureUserDetailsB (some au)
        (captureUserDetailsB (some au) store).2.1).2.1 au.id = 1) := by
  obtain ⟨ok1, cnt1⟩ := captureA_run au store hid huniq
  obtain ⟨ok2, cnt2⟩ :=
    captureA_run au (captureUserDetailsA (some au) store).2.1 hid (by omega)
  have hA : isOkE (captureUserDetailsA (some au) store).1 = true ∧
      isOkE (captureUserDetailsA (some au) (captureUserDetailsA (some au) store).2.1).1 = true ∧
      countById (captureUserDetailsA (some au)
        (captureUserDetailsA (some au) store).2.1).2.1 au.id = 1 :=
    ⟨ok1, ok2, cnt2⟩
  refine ⟨hA, ?_⟩
  rw [← captureA_eq_captureB au store hid,
    ← captureA_eq_captureB au (captureUserDetailsA (some au) store).2.1 hid]
  exact hA

/-- Witness for C6 at a concrete user and the empty store. -/
theorem captureUserDetails_idempotent_witness :
    (isOkE (captureUserDetailsA (some ⟨"u1", some "jane@example.com", none, none, none⟩) []).1
        = true ∧
      isOkE (captureUserDetailsA (some ⟨"u1", some "jane@example.com", none, none, none⟩)
        (captureUserDetailsA (some ⟨"u1", some "jane@example.com", none, none, none⟩) []).2.1).1
        = true ∧
      countById (captureUserDetailsA (some ⟨"u1", some "jane@example.com", none, none, none⟩)
        (captureUserDetailsA (some ⟨"u1", some "jane@example.com", none, none, none⟩) []).2.1).2.1
        "u1" = 1) ∧
    (isOkE (captureUserDetailsB (some ⟨"u1", some "jane@example.com", none, none, none⟩) []).1
        = true ∧
      isOkE (captureUserDetailsB (some ⟨"u1", some "jane@example.com", none, none, none⟩)
        (captureUserDetailsB (some ⟨"u1", some "jane@example.com", none, none, none⟩) []).2.1).1
        = true ∧
      countById (captureUserDetailsB (some ⟨"u1", some "jane@example.com", none, none, none⟩)
        (captureUserDetailsB (some ⟨"u1", some "jane@example.com", none, none, none⟩) []).2.1).2.1
        "u1" = 1) :=
  captureUserDetails_idempotent ⟨"u1", some "jane@example.com", none, none, none⟩ []
    (by decide) (by decide)

/-- C9: when the auth user argument is absent, or its id is missing/empty,
both variants of `captureUserDetails` throw their invalid-user error with
an empty store-operation trace — no read or write on the profile store is
performed, and the store is unchanged. -/
theorem captureUserDetails_guard (store : ProfileStore) (au : AuthUser)
    (hid : au.id = "") :
    captureUserDetailsA none store =
      (.error ⟨"Invalid auth user data", none, none, none⟩, store, []) ∧
    captureUserDetailsA (some au) store =
      (.error ⟨"Invalid auth user data", none, none, none⟩, store, []) ∧
    captureUserDetailsB none store =
      (.error ⟨"Invalid auth user", none, none, none⟩, store, []) ∧
    captureUserDetailsB (some au) store =
      (.error ⟨"Invalid auth user", none, none, none⟩, store, []) := by
  refine ⟨rfl, ?_, rfl, ?_⟩ <;>
    simp only [captureUserDetailsA, captureUserDetailsB, hid, if_pos]

/-- Witness for C9 at an auth user with an empty id and a one-row store. -/
theorem captureUserDetails_guard_witness :
    captureUserDetailsA none [⟨"u1", "e", "n", "", "", "email"⟩] =
      (.error ⟨"Invalid auth user data", none, none, none⟩,
        [⟨"u1", "e", "n", "", "", "email"⟩], []) ∧
    captureUserDetailsA (some ⟨"", some "jane@example.com", none, none, none⟩)
        [⟨"u1", "e", "n", "", "", "email"⟩] =
      (.error ⟨"Invalid auth user data", none, none, none⟩,
        [⟨"u1", "e", "n", "", "", "email"⟩], []) ∧
    captureUserDetailsB none [⟨"u1", "e", "n", "", "", "email"⟩] =
      (.error ⟨"Invalid auth user", none, none, none⟩,
        [⟨"u1", "e", "n", "", "", "email"⟩], []) ∧
    captureUserDetailsB (some ⟨"", some "jane@example.com", none, none, none⟩)
        [⟨"u1", "e", "n", "", "", "email"⟩] =
      (.error ⟨"Invalid auth user", none, none, none⟩,
        [⟨"u1", "e", "n", "", "", "email"⟩], []) :=
  captureUserDetails_guard [⟨"u1", "e", "n", "", "", "email"⟩]
    ⟨"", some "jane@example.com", none, none, none⟩ (by decide)

/-- C7: with no OAuth metadata and email `"jane@example.com"`, the profile
row synthesized by reconciliation has name `"jane"`, provider `"email"`,
avatar `""` and description `""`; in general, name falls back from the
OAuth full name to the email's local part to `"User"`, and provider falls
back from the app-metadata tag to `"email"`. -/
theorem mkUserData_synthesis (au : AuthUser)
    (hfn : au.fullName = none) (hav : au.avatarUrl = none)
    (hpt : au.providerTag = none) (hem : au.email = some "jane@example.com") :
    ((mkUserData au).name = "jane" ∧ (mkUserData au).provider = "email" ∧
      (mkUserData au).avatar = "" ∧ (mkUserData au).description = "") ∧
    (∀ (b : AuthUser) (n : String), b.fullName = some n → ¬ n = "" →
      (mkUserData b).name = n) ∧
    (∀ (b : AuthUser) (e : String), b.fullName = none → b.email = some e →
      ¬ localPart e = "" → (mkUserData b).name = localPart e) ∧
    (∀ (b : AuthUser), b.fullName = none → b.email = none →
      (mkUserData b).name = "User") ∧
    (∀ (b : AuthUser) (p : String), b.providerTag = some p → ¬ p = "" →
      (mkUserData b).provider = p) ∧
    (∀ (b : AuthUser), b.providerTag = none → (mkUserData b).provider = "email") := by
  refine ⟨?_, ?_, ?_, ?_, ?_, ?_⟩
  · refine ⟨?_, ?_, ?_, ?_⟩ <;>
      simp [mkUserData, jsOr, hfn, hav, hpt, hem, localPart, takeUntilAt]
  · intro b n h hne
    simp [mkUserData, jsOr, h, hne]
  · intro b e hfn' hem' hne
    simp [mkUserData, jsOr, hfn', hem', hne]
  · intro b hfn' hem'
    simp [mkUserData, jsOr, hfn', hem']
  · intro b p h hne
    simp [mkUserData, jsOr, h, hne]
  · intro b h
    simp [mkUserData, jsOr, h]

/-- Witness for C7 at a concrete metadata-free auth user. -/
theorem mkUserData_synthesis_witness :
    (mkUserData ⟨"u1", some "jane@example.com", none, none, none⟩).name = "jane" ∧
    (mkUserData ⟨"u1", some "jane@example.com", none, none, none⟩).provider = "email" ∧
    (mkUserData ⟨"u1", some "jane@example.com", none, none, none⟩).avatar = "" ∧
    (mkUserData ⟨"u1", some "jane@example.com", none, none, none⟩).description = "" :=
  (mkUserData_synthesis ⟨"u1", some "jane@example.com", none, none, none⟩
    rfl rfl rfl rfl).1

/-- The registered-email message is a fixed point of the heuristics pass
(it contains `"already registered"`, which maps to itself). -/
theorem heuristics_registered_fixed :
    heuristics "This email is already registered. Please try logging in instead." =
      "This email is already registered. Please try logging in instead." := by
  decide

/-- C1 counterexample: an error value carrying code `"23505"` whose
`message` field is absent/empty is returned as the generic fallback, not as
the registered-email message — the claim's "including when the message
field is absent or empty" fails on the code. -/
theorem getAuthError_23505_empty_message_cex :
    getAuthError (some ⟨"", some 409, some "23505", none⟩) =
      ⟨"An unexpected error occurred", none⟩ ∧
    ¬ (getAuthError (some ⟨"", some 409, some "23505", none⟩)).message =
      "This email is already registered. Please try logging in instead." := by
  exact ⟨by decide, by decide⟩

/-- C1 (amended): for every error value carrying code `"23505"` and a
truthy (non-empty, present) message field, `getAuthError` returns the
message "This email is already registered. Please try logging in instead.",
regardless of the original message text. -/
theorem getAuthError_23505 (err : SbError) (hm : ¬ err.message = "")
    (hc : err.code = some "23505") :
    (getAuthError (some err)).message =
      "This email is already registered. Please try logging in instead." := by
  simp only [getAuthError, if_neg hm, hc]
  rw [if_neg (by decide : ¬ ("23505" : String) = "")]
  have hsw : codeSwitch "23505" err.message =
      "This email is already registered. Please try logging in instead." := by
    simp [codeSwitch]
  rw [hsw, heuristics_registered_fixed]

/-- Witness for the amended C1 at a concrete error value. -/
theorem getAuthError_23505_witness :
    (getAuthError (some ⟨"duplicate key value violates unique constraint",
        some 409, some "23505", none⟩)).message =
      "This email is already registered. Please try logging in instead." :=
  getAuthError_23505 ⟨"duplicate key value violates unique constraint",
    some 409, some "23505", none⟩ (by decide) rfl

/-- C2: enumeration resistance — a request for an email with no profile row
(the lookup reports the no-rows condition `PGRST116`) and a request for an
email whose row has provider `"email"` (with the provider's reset call
succeeding) return the identical payload
`{success: true, message: "If an account exists, a password reset link will
be sent."}`. -/
theorem resetPasswordRequest_enumeration_resistance (ue : SbError)
    (hue : ue.code = some "PGRST116") (u : IUser) (hu : u.provider = "email")
    (resetErr? : Option SbError) :
    (resetPasswordRequest none (some ue) resetErr?).1 = .ok genericResetResponse ∧
    (resetPasswordRequest (some u) none none).1 = .ok genericResetResponse := by
  constructor
  · simp [resetPasswordRequest, hue, resetAfterLookup]
  · simp [resetPasswordRequest, resetAfterLookup, hu]

/-- Witness for C2: ghost@example.com (no row) and real@example.com (an
email-provider row) get the same payload. -/
theorem resetPasswordRequest_enumeration_resistance_witness :
    (resetPasswordRequest none
        (some ⟨"no rows returned", none, some "PGRST116", none⟩) none).1 =
      .ok genericResetResponse ∧
    (resetPasswordRequest
        (some ⟨"u1", "real@example.com", "Real", "", "", "email"⟩) none none).1 =
      .ok genericResetResponse :=
  resetPasswordRequest_enumeration_resistance
    ⟨"no rows returned", none, some "PGRST116", none⟩ rfl
    ⟨"u1", "real@example.com", "Real", "", "", "email"⟩ rfl none

/-- C8: when the lookup reports the no-rows condition, or finds a row whose
provider is not `"email"`, `resetPasswordRequest` returns the generic
success response and never invokes the provider's reset-email operation
(the invocation flag is `false`), whatever that operation would have
returned. -/
theorem resetPasswordRequest_no_reset_call (ue : SbError)
    (hue : ue.code = some "PGRST116") (u : IUser) (hu : ¬ u.provider = "email")
    (r1 r2 : Option SbError) :
    resetPasswordRequest none (some ue) r1 = (.ok genericResetResponse, false) ∧
    resetPasswordRequest (some u) none r2 = (.ok genericResetResponse, false) := by
  constructor
  · simp [resetPasswordRequest, hue, resetAfterLookup]
  · simp [resetPasswordRequest, resetAfterLookup, hu]

/-- Witness for C8: a missing row and a Google-provider row both
short-circuit without a reset call. -/
theorem resetPasswordRequest_no_reset_call_witness :
    resetPasswordRequest none
        (some ⟨"no rows returned", none, some "PGRST116", none⟩)
        (some ⟨"smtp down", some 500, none, none⟩) =
      (.ok genericResetResponse, false) ∧
    resetPasswordRequest (some ⟨"u2", "oauth@example.com", "O", "", "", "google"⟩)
        none (some ⟨"smtp down", some 500, none, none⟩) =
      (.ok genericResetResponse, false) :=
  resetPasswordRequest_no_reset_call
    ⟨"no rows returned", none, some "PGRST116", none⟩ rfl
    ⟨"u2", "oauth@example.com", "O", "", "", "google"⟩ (by decide)
    (some ⟨"smtp down", some 500, none, none⟩) (some ⟨"smtp down", some 500, none, none⟩)

/-- C3: `signOut` resets the process-wide access store for every outcome of
the provider call, and when the provider returns an error it throws the
`{message, status}` value derived from that error (after the reset). -/
theorem signOut_resets_store (providerError : Option SbError) (e : SbError)
    (s s' : AccessState) :
    (signOut providerError s).1 = AccessState.reset s ∧
    (signOut (some e) s').1 = AccessState.reset s' ∧
    (signOut (some e) s').2 = some ⟨e.message, e.status⟩ := by
  refine ⟨?_, rfl, rfl⟩
  cases providerError <;> rfl

/-- C4: when the provider rejects the credentials, `signUp` throws the
normalized `{message, status}` value produced by `getAuthError` (the typed
result rules out the raw backend error shape); and when the provider
accepts but profile reconciliation fails, `signUp` also throws a normalized
error rather than returning success. -/
theorem signUp_normalizes_errors (e ce : SbError) (u : AuthUser)
    (capture : AuthUser → Except SbError IUser) (hc : capture u = .error ce) :
    signUp (.error e) capture = .error (getAuthError (some e)) ∧
    signUp (.ok ⟨some u⟩) capture = .error (getAuthError (some ce)) := by
  constructor
  · rfl
  · simp [signUp, hc]

/-- Witness for C4: a weak-password rejection and a store failure during
reconciliation both surface normalized. -/
theorem signUp_normalizes_errors_witness :
    signUp (.error ⟨"Password should be at least 6 characters", some 422,
        some "auth/weak-password", none⟩)
        (fun _ => .error ⟨"fetch failed", none, none, none⟩) =
      .error (getAuthError (some ⟨"Password should be at least 6 characters",
        some 422, some "auth/weak-password", none⟩)) ∧
    signUp (.ok ⟨some ⟨"u1", some "jane@example.com", none, none, none⟩⟩)
        (fun _ => .error ⟨"fetch failed", none, none, none⟩) =
      .error (getAuthError (some ⟨"fetch failed", none, none, none⟩)) :=
  signUp_normalizes_errors
    ⟨"Password should be at least 6 characters", some 422, some "auth/weak-password", none⟩
    ⟨"fetch failed", none, none, none⟩
    ⟨"u1", some "jane@example.com", none, none, none⟩
    (fun _ => .error ⟨"fetch failed", none, none, none⟩) rfl

/-- C5: when the provider accepts the credentials, `signIn` returns the
provider's session data; in particular a failing reconciliation is caught
and does not make `signIn` throw. -/
theorem signIn_tolerates_capture_failure (data : SessionData) (u : AuthUser)
    (e : SbError) (capture : AuthUser → Except SbError IUser)
    (hc : capture u = .error e) :
    signIn (.ok data) capture = .ok data ∧
    signIn (.ok ⟨some u⟩) capture = .ok ⟨some u⟩ := by
  constructor
  · cases data with
    | mk user? =>
      cases user? with
      | none => rfl
      | some v =>
        simp only [signIn]
        cases capture v <;> rfl
  · simp [signIn, hc]

/-- Witness for C5: the session survives a failing reconciliation. -/
theorem signIn_tolerates_capture_failure_witness :
    signIn (.ok ⟨some ⟨"u1", some "jane@example.com", none, none, none⟩⟩)
        (fun _ => .error ⟨"row not found", none, some "PGRST116", none⟩) =
      .ok ⟨some ⟨"u1", some "jane@example.com", none, none, none⟩⟩ ∧
    signIn (.ok ⟨some ⟨"u1", some "jane@example.com", none, none, none⟩⟩)
        (fun _ => .error ⟨"row not found", none, some "PGRST116", none⟩) =
      .ok ⟨some ⟨"u1", some "jane@example.com", none, none, none⟩⟩ :=
  signIn_tolerates_capture_failure
    ⟨some ⟨"u1", some "jane@example.com", none, none, none⟩⟩
    ⟨"u1", some "jane@example.com", none, none, none⟩
    ⟨"row not found", none, some "PGRST116", none⟩
    (fun _ => .error ⟨"row not found", none, some "PGRST116", none⟩) rfl

/-- C10: when the store update succeeds, `updateProfile` returns normally
whatever the auth-metadata call does (its error is swallowed, recorded only
as logged); the metadata call is made exactly when the update carries an
avatar or name key; and a failing store update is thrown with no metadata
call. -/
theorem updateProfile_swallows_metadata_error (userId : String)
    (updates : ProfileUpdates) (store : ProfileStore)
    (authErr? : Option SbError) (se : SbError) :
    (updateProfile userId updates store none authErr?).1 = .ok () ∧
    (updateProfile userId updates store none authErr?).2.2.1 =
      (updates.avatar.isSome || updates.name.isSome) ∧
    (updateProfile userId updates store (some se) authErr?).1 = .error se ∧
    (updateProfile userId updates store (some se) authErr?).2.2.1 = false := by
  refine ⟨?_, ?_, rfl, rfl⟩ <;>
    · simp only [updateProfile]
      cases h : updates.avatar.isSome || updates.name.isSome <;>
        cases authErr? <;> simp [h]
